import Mathlib

/-!
Verification of the AMBiT MBPT integral engine specification against the
source code of ValenceMBPTCalculator.cpp, ValenceCalculator.cpp and
BruecknerDecorator.cpp.

The embedding is shallow: C++ doubles become rationals, the external
black-box numeric services (3j/6j coefficients, Coulomb radial
integration, isotope-shift integrals, one-body matrix elements, the
Q-space membership test of MBPTCalculator, and the sigma-potential
computation of BruecknerSigmaCalculator, none of which are part of the
core sources) become fields of explicit context structures, and the
iteration over orbital maps becomes folds over lists.
-/

/-! ## Data model: OrbitalInfo (HartreeFock/OrbitalInfo.h) -/

/-- Single particle state information: principal quantum number and kappa
(HartreeFock/OrbitalInfo.h). -/
structure OrbitalInfo where
  pqn : Int
  kappa : Int
deriving DecidableEq, Repr

namespace OrbitalInfo

/-- Orbital angular momentum: kappa if kappa > 0 else -kappa-1
(OrbitalInfo.h line 58).  The result is a nonnegative integer, so we use Nat. -/
def L (s : OrbitalInfo) : Nat :=
  if 0 < s.kappa then s.kappa.toNat else (-s.kappa - 1).toNat

/-- Twice the total angular momentum: 2|kappa| - 1 (OrbitalInfo.h line 81). -/
def TwoJ (s : OrbitalInfo) : Nat :=
  2 * s.kappa.natAbs - 1

/-- MaxNumElectrons = 2|kappa| (OrbitalInfo.h line 30). -/
def MaxNumElectrons (s : OrbitalInfo) : Nat :=
  2 * s.kappa.natAbs

end OrbitalInfo

/-- Orbital: state information plus energy eigenvalue and the two radial
wavefunction components sampled on the lattice (HartreeFock/Orbital.cpp). -/
structure Orbital where
  info : OrbitalInfo
  energy : ℚ
  f : List ℚ
  g : List ℚ
deriving DecidableEq, Repr

namespace Orbital

def pqn (s : Orbital) : Int := s.info.pqn
def kappa (s : Orbital) : Int := s.info.kappa
def L (s : Orbital) : Nat := s.info.L
def TwoJ (s : Orbital) : Nat := s.info.TwoJ
/-- size() of the wavefunction, the number of lattice points where the
orbital is sampled. -/
def size (s : Orbital) : Nat := s.f.length

end Orbital

/-- MathConstant::minus_one_to_the_power: (-1)^n
(Universal/MathConstant, consumed as black-box service). -/
def minusOneToThePower (n : Nat) : ℚ :=
  if n % 2 = 1 then -1 else 1

/-! ## ValenceMBPTCalculator (MBPT/ValenceMBPTCalculator.cpp)

The calculator consumes cached integrals (SlaterIntegrals), one-body
matrix elements, the angular-coefficient services of MathConstant, and the
MBPTCalculator facilities (InQSpace, ValenceEnergies, delta, kmin/kmax).
All of those are external to this file's sources, so they are fields of
the context structure.  kmin/kmax (from the missing MBPTCalculator.h) are
kept fully abstract. -/

structure MBPTCtx where
  /-- MathConstant::Electron3j(TwoJ1, TwoJ2, k): triangle coefficient. -/
  electron3j : Nat → Nat → Nat → ℚ
  /-- MathConstant::Wigner6j(J1,..,J6); all six arguments are passed
  doubled (twice the half-integer values) to stay in Nat. -/
  wigner6j : Nat → Nat → Nat → Nat → Nat → Nat → ℚ
  /-- SlaterIntegrals::GetTwoElectronIntegral(k, i, j, l, m) = R_k(ij,lm). -/
  twoElectronIntegral : Nat → OrbitalInfo → OrbitalInfo → OrbitalInfo → OrbitalInfo → ℚ
  /-- HFIntegrals::GetMatrixElement. -/
  oneBodyME : OrbitalInfo → OrbitalInfo → ℚ
  /-- MBPTCalculator::InQSpace(s). -/
  inQSpace1 : OrbitalInfo → Bool
  /-- MBPTCalculator::InQSpace(s1, s2). -/
  inQSpace2 : OrbitalInfo → OrbitalInfo → Bool
  /-- ValenceEnergies.find(kappa)->second. -/
  valenceEnergy : Int → ℚ
  /-- MBPTCalculator::delta, the energy-denominator regularisation shift. -/
  delta : ℚ
  /-- MBPTCalculator::kmin (missing header; abstract). -/
  kminF : OrbitalInfo → OrbitalInfo → Nat
  /-- MBPTCalculator::kmax (missing header; abstract). -/
  kmaxF : OrbitalInfo → OrbitalInfo → Nat

/-- The list of multipoles visited by a loop of the form
`for(x = lo; x <= hi; x += 2)`. -/
def stepTwoRange (lo hi : Nat) : List Nat :=
  if hi < lo then []
  else (List.range ((hi - lo) / 2 + 1)).map (fun i => lo + 2 * i)

/-- The perturbative denominator of every one-body term:
ValenceEnergy - Ealpha + delta (ValenceMBPTCalculator.cpp line 74,
ValenceCalculator.cpp line 60). -/
def oneBodyDenominator (valenceEnergy Ealpha delta : ℚ) : ℚ :=
  valenceEnergy - Ealpha + delta

/-- The perturbative denominator of every two-body intermediate-pair term:
ValenceEnergy - Ealpha - Ebeta + delta (ValenceMBPTCalculator.cpp
line 122, ValenceCalculator.cpp line 131). -/
def pairDenominator (valenceEnergy Ealpha Ebeta delta : ℚ) : ℚ :=
  valenceEnergy - Ealpha - Ebeta + delta

/-- The exponent used for the overall sign of a pair contribution:
(TwoJ(a)+TwoJ(b)+TwoJ(c)+TwoJ(d)+TwoJ(alpha)+TwoJ(beta))/2
(ValenceMBPTCalculator.cpp line 124, ValenceCalculator.cpp line 132). -/
def exponentSum (sa sb sc sd salpha sbeta : OrbitalInfo) : Nat :=
  (sa.TwoJ + sb.TwoJ + sc.TwoJ + sd.TwoJ + salpha.TwoJ + sbeta.TwoJ) / 2

/-- coeff_alphabeta of ValenceMBPTCalculator.cpp lines 119-125: the
per-pair prefactor including the (-1)^(exponent+k+1) sign. -/
def coeffAlphaBeta (ctx : MBPTCtx) (k : Nat) (sa sb sc sd salpha sbeta : OrbitalInfo)
    (coeff_ac coeff_bd valenceEnergy Ealpha Ebeta : ℚ) : ℚ :=
  let c0 : ℚ := (salpha.MaxNumElectrons : ℚ) * (sbeta.MaxNumElectrons : ℚ) * (2 * (k : ℚ) + 1)
  let c1 := c0 / (coeff_ac * coeff_bd)
  let c2 := c1 / pairDenominator valenceEnergy Ealpha Ebeta ctx.delta
  c2 * minusOneToThePower (exponentSum sa sb sc sd salpha sbeta + k + 1)

/-- coeff_alphabeta without the sign factor (used to state claim C1). -/
def coeffAlphaBetaNoSign (ctx : MBPTCtx) (k : Nat) (salpha sbeta : OrbitalInfo)
    (coeff_ac coeff_bd valenceEnergy Ealpha Ebeta : ℚ) : ℚ :=
  let c0 : ℚ := (salpha.MaxNumElectrons : ℚ) * (sbeta.MaxNumElectrons : ℚ) * (2 * (k : ℚ) + 1)
  let c1 := c0 / (coeff_ac * coeff_bd)
  c1 / pairDenominator valenceEnergy Ealpha Ebeta ctx.delta

/-- The term accumulated into the energy for one surviving (k1, k2):
R1 * R2 * coeff, where coeff includes the (k1+k2) parity negation
(ValenceMBPTCalculator.cpp lines 150-158).  rawCoeff is the product of
the two inner 3j coefficients and the two 6j coefficients, coeff_ab the
product of the two k1 3j coefficients, pairCoeff the signed
coeff_alphabeta. -/
def accumTerm (k1 k2 : Nat) (rawCoeff coeff_ab pairCoeff R1 R2 : ℚ) : ℚ :=
  let c := rawCoeff * coeff_ab * pairCoeff
  let c := if (k1 + k2) % 2 = 1 then -c else c
  R1 * R2 * c

/-- The same term with both parity sign factors removed (for claim C1:
the signless combination that C1 asserts is the only other content of
the term). -/
def accumTermNoSignMBPT (ctx : MBPTCtx) (k : Nat) (salpha sbeta : OrbitalInfo)
    (rawCoeff coeff_ab coeff_ac coeff_bd valenceEnergy Ealpha Ebeta R1 R2 : ℚ) : ℚ :=
  R1 * R2 * (rawCoeff * coeff_ab *
    coeffAlphaBetaNoSign ctx k salpha sbeta coeff_ac coeff_bd valenceEnergy Ealpha Ebeta)

/-- Inner k2 loop of CalculateTwoElectronValence
(ValenceMBPTCalculator.cpp lines 139-162).  Returns the accumulated
energy together with the number of GetTwoElectronIntegral fetches
performed inside the loop. -/
def innerK2SumMBPT (ctx : MBPTCtx) (k k1 : Nat) (sa sb sc sd salpha sbeta : OrbitalInfo)
    (coeff_ab pairCoeff R1 : ℚ) : ℚ × Nat :=
  (stepTwoRange (ctx.kminF salpha sc) (ctx.kmaxF salpha sc)).foldl (fun acc k2 =>
    let coeff0 := ctx.electron3j salpha.TwoJ sc.TwoJ k2 * ctx.electron3j sbeta.TwoJ sd.TwoJ k2
    let coeff1 := if coeff0 = 0 then 0 else
      coeff0 * ctx.wigner6j sc.TwoJ sa.TwoJ (2 * k) (2 * k1) (2 * k2) salpha.TwoJ
             * ctx.wigner6j sd.TwoJ sb.TwoJ (2 * k) (2 * k1) (2 * k2) sbeta.TwoJ
    if coeff1 = 0 then acc
    else
      let R2 := ctx.twoElectronIntegral k2 salpha sbeta sc sd
      (acc.1 + accumTerm k1 k2 coeff1 coeff_ab pairCoeff R1 R2, acc.2 + 1))
    (0, 0)

/-- k1 loop of CalculateTwoElectronValence (ValenceMBPTCalculator.cpp
lines 127-166). -/
def innerK1SumMBPT (ctx : MBPTCtx) (k : Nat) (sa sb sc sd salpha sbeta : OrbitalInfo)
    (pairCoeff : ℚ) : ℚ × Nat :=
  (stepTwoRange (ctx.kminF sa salpha) (ctx.kmaxF sa salpha)).foldl (fun acc k1 =>
    let coeff_ab := ctx.electron3j sa.TwoJ salpha.TwoJ k1 * ctx.electron3j sb.TwoJ sbeta.TwoJ k1
    if coeff_ab = 0 then acc
    else
      let R1 := ctx.twoElectronIntegral k1 sa sb salpha sbeta
      let inner := innerK2SumMBPT ctx k k1 sa sb sc sd salpha sbeta coeff_ab pairCoeff R1
      (acc.1 + inner.1, acc.2 + 1 + inner.2))
    (0, 0)

/-- Contribution of one intermediate pair (alpha, beta) in
CalculateTwoElectronValence (ValenceMBPTCalculator.cpp lines 115-167),
with the count of GetTwoElectronIntegral fetches it triggers. -/
def pairContribMBPT (ctx : MBPTCtx) (k : Nat) (sa sb sc sd : OrbitalInfo)
    (coeff_ac coeff_bd valenceEnergy : ℚ) (alpha beta : OrbitalInfo × ℚ) : ℚ × Nat :=
  let salpha := alpha.1
  let sbeta := beta.1
  if ctx.inQSpace2 salpha sbeta = true ∧
     (sa.L + salpha.L) % 2 = (sb.L + sbeta.L) % 2 ∧
     (salpha.L + sc.L) % 2 = (sbeta.L + sd.L) % 2 then
    innerK1SumMBPT ctx k sa sb sc sd salpha sbeta
      (coeffAlphaBeta ctx k sa sb sc sd salpha sbeta coeff_ac coeff_bd valenceEnergy alpha.2 beta.2)
  else (0, 0)

/-- ValenceMBPTCalculator::CalculateTwoElectronValence
(ValenceMBPTCalculator.cpp lines 85-176).  The excited set is given as
the list of (OrbitalInfo, energy) pairs the iterators visit.  Returns
the accumulated energy and the total number of GetTwoElectronIntegral
fetches. -/
def calculateTwoElectronValenceMBPT (ctx : MBPTCtx) (k : Nat) (sa sb sc sd : OrbitalInfo)
    (excited : List (OrbitalInfo × ℚ)) : ℚ × Nat :=
  let coeff_ac := ctx.electron3j sa.TwoJ sc.TwoJ k
  let coeff_bd := ctx.electron3j sb.TwoJ sd.TwoJ k
  if coeff_ac = 0 ∨ coeff_bd = 0 then (0, 0)
  else
    let valenceEnergy := ctx.valenceEnergy sa.kappa + ctx.valenceEnergy sb.kappa
    excited.foldl (fun acc alpha =>
      excited.foldl (fun acc2 beta =>
        let p := pairContribMBPT ctx k sa sb sc sd coeff_ac coeff_bd valenceEnergy alpha beta
        (acc2.1 + p.1, acc2.2 + p.2)) acc)
      (0, 0)

/-- Number of (alpha, beta) intermediate-pair iterations executed by
CalculateTwoElectronValence: zero when the outer triangle coefficients
force the early return, the full double loop otherwise. -/
def pairIterationsMBPT (ctx : MBPTCtx) (k : Nat) (sa sb sc sd : OrbitalInfo)
    (excited : List (OrbitalInfo × ℚ)) : Nat :=
  let coeff_ac := ctx.electron3j sa.TwoJ sc.TwoJ k
  let coeff_bd := ctx.electron3j sb.TwoJ sd.TwoJ k
  if coeff_ac = 0 ∨ coeff_bd = 0 then 0
  else excited.length * excited.length

/-- ValenceMBPTCalculator::CalculateOneElectronSub
(ValenceMBPTCalculator.cpp lines 55-83); `high` is the list of
(OrbitalInfo, energy) pairs visited by the iterator. -/
def calculateOneElectronSub (ctx : MBPTCtx) (sa sb : OrbitalInfo)
    (high : List (OrbitalInfo × ℚ)) : ℚ :=
  let valenceEnergy := ctx.valenceEnergy sa.kappa
  high.foldl (fun acc p =>
    if ctx.inQSpace1 p.1 = true ∧ sa.kappa = p.1.kappa then
      acc + (ctx.oneBodyME sa p.1 * ctx.oneBodyME p.1 sb) /
        oneBodyDenominator valenceEnergy p.2 ctx.delta
    else acc) 0

/-- ValenceMBPTCalculator::GetOneElectronSubtraction
(ValenceMBPTCalculator.cpp lines 32-38). -/
def getOneElectronSubtraction (ctx : MBPTCtx) (sa sb : OrbitalInfo)
    (high : List (OrbitalInfo × ℚ)) : ℚ :=
  if sa.kappa ≠ sb.kappa then 0
  else calculateOneElectronSub ctx sa sb high

/-! ## ValenceCalculator (MBPT/ValenceCalculator.cpp)

This variant works directly on wavefunctions: the radial integrals are
computed fresh via CoulombIntegrator::FastCoulombIntegrate and
contracted against the lattice weights dR.  Those numeric services
(including StateIntegrator's isotope-shift and Hamiltonian matrix
elements) are external and appear as context fields. -/

structure VCCtx where
  /-- MathConstant::Electron3j(TwoJ1, TwoJ2, k, 1, -1); the fixed
  projection arguments (1, -1) used at every call site are absorbed. -/
  electron3j : Nat → Nat → Nat → ℚ
  /-- MathConstant::Wigner6j; arguments doubled as in MBPTCtx. -/
  wigner6j : Nat → Nat → Nat → Nat → Nat → Nat → ℚ
  /-- CoulombIntegrator::FastCoulombIntegrate(density, pot, k, limit):
  pot as a function of the lattice point. -/
  fastCoulomb : List ℚ → Nat → Nat → Nat → ℚ
  /-- StateIntegrator::IsotopeShiftIntegral. -/
  isotopeShift : Orbital → Orbital → ℚ
  /-- StateIntegrator::HamiltonianMatrixElement (with the core). -/
  hamiltonianME : Orbital → Orbital → ℚ
  /-- lattice->dR(), the quadrature weights. -/
  dR : Nat → ℚ
  /-- core->GetNuclearInverseMass(). -/
  nuclearInverseMass : ℚ
  /-- ValenceEnergies.find(kappa)->second. -/
  valenceEnergy : Int → ℚ
  /-- MBPTCalculator::delta. -/
  delta : ℚ

/-- MAX_K of ValenceCalculator.cpp line 8. -/
def MAX_K : Nat := 12

/-- The internal multipole loop range of CalculateTwoElectronValence1:
for(k1 = (x.L()+y.L())%2; k1 <= MAX_K; k1 += 2)
(ValenceCalculator.cpp lines 136-137 and 159-160). -/
def kRangeVC (x y : Orbital) : List Nat :=
  stepTwoRange ((x.L + y.L) % 2) MAX_K

/-- The triangle rule for an internal multipole k against the two
orbital lines x, y: parity matching the L sum, and the 3j triangle
inequalities on the total angular momenta. -/
def triangleAllowed (x y : Orbital) (k : Nat) : Prop :=
  (x.L + y.L + k) % 2 = 0 ∧ x.TwoJ ≤ y.TwoJ + 2 * k ∧ y.TwoJ ≤ x.TwoJ + 2 * k ∧
    2 * k ≤ x.TwoJ + y.TwoJ

instance (x y : Orbital) (k : Nat) : Decidable (triangleAllowed x y k) := by
  unfold triangleAllowed; infer_instance

/-- density[i] = x.f[i]*y.f[i] + x.g[i]*y.g[i] for i < mmin(sizes)
(ValenceCalculator.cpp lines 146-149 and elsewhere). -/
def densityProd (x y : Orbital) : List ℚ :=
  (List.range (min x.size y.size)).map
    (fun i => x.f.getD i 0 * y.f.getD i 0 + x.g.getD i 0 * y.g.getD i 0)

/-- Contraction of a radial potential against the density of the pair
(x, y) with quadrature weights:
sum over i < mmin(x.size, y.size) of pot[i]*(x.f[i]*y.f[i]+x.g[i]*y.g[i])*dR[i]
(ValenceCalculator.cpp lines 152-153 and analogues). -/
def contractPot (ctx : VCCtx) (pot : Nat → ℚ) (x y : Orbital) : ℚ :=
  ((List.range (min x.size y.size)).map
    (fun i => pot i * (x.f.getD i 0 * y.f.getD i 0 + x.g.getD i 0 * y.g.getD i 0) * ctx.dR i)).sum

/-- R1 = R_k1(ab, mn) before the isotope-shift correction: density from
(sb, s4), Coulomb-integrated at multipole k1, contracted against
(sa, s3) (ValenceCalculator.cpp lines 144-153). -/
def radialR1Base (ctx : VCCtx) (k1 : Nat) (sa sb s3 s4 : Orbital) : ℚ :=
  contractPot ctx (ctx.fastCoulomb (densityProd sb s4) k1 (min sb.size s4.size)) sa s3

/-- R1 as used: the isotope-shift cross term is subtracted exactly when
the nuclear inverse mass is nonzero and k1 = 1
(ValenceCalculator.cpp lines 155-157). -/
def radialR1 (ctx : VCCtx) (k1 : Nat) (sa sb s3 s4 : Orbital) : ℚ :=
  let base := radialR1Base ctx k1 sa sb s3 s4
  if ctx.nuclearInverseMass ≠ 0 ∧ k1 = 1 then
    base - ctx.nuclearInverseMass * ctx.isotopeShift s3 sa * ctx.isotopeShift s4 sb
  else base

/-- R2 = R_k2(mn, cd) before the isotope-shift correction
(ValenceCalculator.cpp lines 174-183). -/
def radialR2Base (ctx : VCCtx) (k2 : Nat) (sc sd s3 s4 : Orbital) : ℚ :=
  contractPot ctx (ctx.fastCoulomb (densityProd s4 sd) k2 (min s4.size sd.size)) s3 sc

/-- R2 as used (ValenceCalculator.cpp lines 185-187). -/
def radialR2 (ctx : VCCtx) (k2 : Nat) (sc sd s3 s4 : Orbital) : ℚ :=
  let base := radialR2Base ctx k2 sc sd s3 s4
  if ctx.nuclearInverseMass ≠ 0 ∧ k2 = 1 then
    base - ctx.nuclearInverseMass * ctx.isotopeShift s3 sc * ctx.isotopeShift s4 sd
  else base

/-- coeff_34 before the pruning guard: (J3+1)(J4+1)(2k+1), zeroed by
either parity mismatch (ValenceCalculator.cpp lines 122-126). -/
def coeff34Pre (k : Nat) (sa sb sc sd s3 s4 : Orbital) : ℚ :=
  let c0 : ℚ := ((s3.TwoJ + 1 : Nat) : ℚ) * ((s4.TwoJ + 1 : Nat) : ℚ) * (2 * (k : ℚ) + 1)
  let c1 := if (sa.L + s3.L) % 2 ≠ (sb.L + s4.L) % 2 then 0 else c0
  if (s3.L + sc.L) % 2 ≠ (sd.L + s4.L) % 2 then 0 else c1

/-- coeff_34 after the guard: divided by the outer coefficients and the
energy denominator, negated when (exponent + k + 1) is odd
(ValenceCalculator.cpp lines 130-134). -/
def coeff34Signed (ctx : VCCtx) (k : Nat) (sa sb sc sd s3 s4 : Orbital)
    (coeff_ac coeff_bd valenceEnergy : ℚ) : ℚ :=
  let c1 := coeff34Pre k sa sb sc sd s3 s4 / (coeff_ac * coeff_bd)
  let c2 := c1 / pairDenominator valenceEnergy s3.energy s4.energy ctx.delta
  if (exponentSum sa.info sb.info sc.info sd.info s3.info s4.info + k + 1) % 2 = 1 then -c2
  else c2

/-- coeff_34 without the exponent sign factor (used to state claim C1). -/
def coeff34NoSign (ctx : VCCtx) (k : Nat) (sa sb sc sd s3 s4 : Orbital)
    (coeff_ac coeff_bd valenceEnergy : ℚ) : ℚ :=
  let c1 := coeff34Pre k sa sb sc sd s3 s4 / (coeff_ac * coeff_bd)
  c1 / pairDenominator valenceEnergy s3.energy s4.energy ctx.delta

/-- The signless accumulated term of CalculateTwoElectronValence1 (for
claim C1). -/
def accumTermNoSignVC (ctx : VCCtx) (k : Nat) (sa sb sc sd s3 s4 : Orbital)
    (rawCoeff coeff_ab coeff_ac coeff_bd valenceEnergy R1 R2 : ℚ) : ℚ :=
  R1 * R2 * (rawCoeff * coeff_ab *
    coeff34NoSign ctx k sa sb sc sd s3 s4 coeff_ac coeff_bd valenceEnergy)

/-- Inner k2 loop of CalculateTwoElectronValence1 (ValenceCalculator.cpp
lines 159-191).  Returns the accumulated energy and the number of
FastCoulombIntegrate radial evaluations performed. -/
def innerK2SumVC (ctx : VCCtx) (k k1 : Nat) (sa sb sc sd s3 s4 : Orbital)
    (coeff_ab c34 R1 : ℚ) : ℚ × Nat :=
  (kRangeVC s3 sc).foldl (fun acc k2 =>
    let coeff0 := ctx.electron3j s3.TwoJ sc.TwoJ k2 * ctx.electron3j s4.TwoJ sd.TwoJ k2
    let coeff1 := if coeff0 = 0 then 0 else
      coeff0 * ctx.wigner6j sc.TwoJ sa.TwoJ (2 * k) (2 * k1) (2 * k2) s3.TwoJ
             * ctx.wigner6j sd.TwoJ sb.TwoJ (2 * k) (2 * k1) (2 * k2) s4.TwoJ
    if coeff1 = 0 then acc
    else
      (acc.1 + accumTerm k1 k2 coeff1 coeff_ab c34 R1 (radialR2 ctx k2 sc sd s3 s4), acc.2 + 1))
    (0, 0)

/-- k1 loop of CalculateTwoElectronValence1 (ValenceCalculator.cpp
lines 136-193). -/
def innerK1SumVC (ctx : VCCtx) (k : Nat) (sa sb sc sd s3 s4 : Orbital)
    (c34 : ℚ) : ℚ × Nat :=
  (kRangeVC sa s3).foldl (fun acc k1 =>
    let coeff_ab := ctx.electron3j sa.TwoJ s3.TwoJ k1 * ctx.electron3j sb.TwoJ s4.TwoJ k1
    if coeff_ab = 0 then acc
    else
      let R1 := radialR1 ctx k1 sa sb s3 s4
      let inner := innerK2SumVC ctx k k1 sa sb sc sd s3 s4 coeff_ab c34 R1
      (acc.1 + inner.1, acc.2 + 1 + inner.2))
    (0, 0)

/-- Contribution of one intermediate pair (s3, s4) in
CalculateTwoElectronValence1: the pruning guard
(s3.PQN() >= 5 || s4.PQN() >= 5) && coeff_34 of line 128, with the
count of FastCoulombIntegrate radial evaluations it triggers. -/
def pairContribVC (ctx : VCCtx) (k : Nat) (sa sb sc sd s3 s4 : Orbital)
    (coeff_ac coeff_bd valenceEnergy : ℚ) : ℚ × Nat :=
  if (5 ≤ s3.pqn ∨ 5 ≤ s4.pqn) ∧ coeff34Pre k sa sb sc sd s3 s4 ≠ 0 then
    innerK1SumVC ctx k sa sb sc sd s3 s4
      (coeff34Signed ctx k sa sb sc sd s3 s4 coeff_ac coeff_bd valenceEnergy)
  else (0, 0)

/-- ValenceCalculator::CalculateTwoElectronValence1
(ValenceCalculator.cpp lines 72-203). -/
def calculateTwoElectronValence1 (ctx : VCCtx) (k : Nat) (sa sb sc sd : Orbital)
    (excited : List Orbital) : ℚ × Nat :=
  let coeff_ac := ctx.electron3j sa.TwoJ sc.TwoJ k
  let coeff_bd := ctx.electron3j sb.TwoJ sd.TwoJ k
  if coeff_ac = 0 ∨ coeff_bd = 0 then (0, 0)
  else
    let valenceEnergy := ctx.valenceEnergy sa.kappa + ctx.valenceEnergy sb.kappa
    excited.foldl (fun acc s3 =>
      excited.foldl (fun acc2 s4 =>
        let p := pairContribVC ctx k sa sb sc sd s3 s4 coeff_ac coeff_bd valenceEnergy
        (acc2.1 + p.1, acc2.2 + p.2)) acc)
      (0, 0)

/-- Number of (s3, s4) intermediate-pair iterations executed by
CalculateTwoElectronValence1: zero on the early return, the full double
loop otherwise. -/
def pairIterationsVC (ctx : VCCtx) (k : Nat) (sa sb sc sd : Orbital)
    (excited : List Orbital) : Nat :=
  let coeff_ac := ctx.electron3j sa.TwoJ sc.TwoJ k
  let coeff_bd := ctx.electron3j sb.TwoJ sd.TwoJ k
  if coeff_ac = 0 ∨ coeff_bd = 0 then 0
  else excited.length * excited.length

/-- ValenceCalculator::CalculateOneElectronValence1
(ValenceCalculator.cpp lines 42-70). -/
def calculateOneElectronValence1 (ctx : VCCtx) (si sf : Orbital)
    (excited : List Orbital) : ℚ :=
  let valenceEnergy := ctx.valenceEnergy si.kappa
  excited.foldl (fun acc s4 =>
    if 5 ≤ s4.pqn ∧ s4.kappa = si.kappa then
      acc + (ctx.hamiltonianME s4 si * ctx.hamiltonianME s4 sf) /
        oneBodyDenominator valenceEnergy s4.energy ctx.delta
    else acc) 0

/-- ValenceCalculator::GetOneElectronValence (ValenceCalculator.cpp
lines 14-22). -/
def getOneElectronValence (ctx : VCCtx) (si sf : Orbital)
    (excited : List Orbital) : ℚ :=
  if si.kappa ≠ sf.kappa then 0
  else calculateOneElectronValence1 ctx si sf excited

/-- SMS_bd of CalculateTwoElectronValence2: the isotope-shift prefactor
for the (sb, sd) density, present exactly when the nuclear inverse mass
is nonzero and the outer multipole k equals 1 (ValenceCalculator.cpp
lines 230-233). -/
def smsBD (ctx : VCCtx) (k : Nat) (sb sd : Orbital) : ℚ :=
  if ctx.nuclearInverseMass ≠ 0 ∧ k = 1 then
    ctx.nuclearInverseMass * ctx.isotopeShift sb sd
  else 0

/-- The radial integral contracted in the first branch of
CalculateTwoElectronValence2 (hole line attached to sa): the (sb, sd)
potential contracted against (s3, sc), with the SMS_bd correction
applied when SMS_bd is nonzero (ValenceCalculator.cpp lines 241-247). -/
def v2R1HoleA (ctx : VCCtx) (k : Nat) (sb sc sd s3 : Orbital) : ℚ :=
  let base := contractPot ctx (ctx.fastCoulomb (densityProd sb sd) k (min sb.size sd.size)) s3 sc
  if smsBD ctx k sb sd ≠ 0 then base - smsBD ctx k sb sd * ctx.isotopeShift s3 sc
  else base

/-! ## BruecknerDecorator (MBPT/BruecknerDecorator.cpp)

SpinorFunction arithmetic (Universal/SpinorFunction, not among the
sources) is modelled from the spec: componentwise operations with
zero-extension, and resize zero-pads.  The SigmaPotential blob is opaque
except for its lattice extent and its action on spinors. -/

/-- A spinor wavefunction: kappa plus the radial components and their
derivatives. -/
structure SpinorFn where
  kappa : Int
  f : List ℚ
  g : List ℚ
  dfdr : List ℚ
  dgdr : List ℚ
deriving DecidableEq, Repr

namespace SpinorFn

/-- size() of the spinor (the length of the f component array). -/
def size (s : SpinorFn) : Nat := s.f.length

end SpinorFn

/-- Modelled from the spec: std::vector-style resize, keeping the first
n entries and zero-padding beyond the original length. -/
def listResize (l : List ℚ) (n : Nat) : List ℚ :=
  (List.range n).map (fun i => l.getD i 0)

/-- SpinorFunction::resize: all four component arrays resized
(zero-padded) to length n. -/
def spinorResize (s : SpinorFn) (n : Nat) : SpinorFn :=
  ⟨s.kappa, listResize s.f n, listResize s.g n, listResize s.dfdr n, listResize s.dgdr n⟩

/-- Modelled from the spec: componentwise subtraction with
zero-extension to the longer of the two arrays (SpinorFunction
operator-=, source not included). -/
def listSub (a b : List ℚ) : List ℚ :=
  (List.range (max a.length b.length)).map (fun i => a.getD i 0 - b.getD i 0)

/-- SpinorFunction subtraction, keeping the left operand's kappa. -/
def spinorSub (a b : SpinorFn) : SpinorFn :=
  ⟨a.kappa, listSub a.f b.f, listSub a.g b.g, listSub a.dfdr b.dfdr, listSub a.dgdr b.dgdr⟩

/-- SpinorFunction scalar multiplication. -/
def spinorScale (c : ℚ) (s : SpinorFn) : SpinorFn :=
  ⟨s.kappa, s.f.map (fun x => c * x), s.g.map (fun x => c * x),
    s.dfdr.map (fun x => c * x), s.dgdr.map (fun x => c * x)⟩

/-- The default-constructed SpinorFunction ret(kappa) of
CalculateExtraNonlocal: empty component arrays. -/
def zeroSpinor (kappa : Int) : SpinorFn := ⟨kappa, [], [], [], []⟩

/-- The SigmaPotential blob: its lattice extent (size()) and its action
ApplyTo on a spinor; the binary layout is owned by the (out-of-scope)
serializer. -/
structure SigmaPot where
  sz : Nat
  app : SpinorFn → SpinorFn

/-- The per-channel sigma map of the decorator:
std::map with kappa keys, modelled as an association list. -/
abbrev SigmaMap := List (Int × SigmaPot)

/-- std::map::operator[] assignment: replace the entry for the key if
present, insert otherwise. -/
def sigmaInsert (kappa : Int) (p : SigmaPot) : SigmaMap → SigmaMap
  | [] => [(kappa, p)]
  | (k', p') :: rest =>
      if k' = kappa then (k', p) :: rest else (k', p') :: sigmaInsert kappa p rest

/-- std::map::find, as an Option-valued lookup. -/
def sigmaFind (kappa : Int) : SigmaMap → Option SigmaPot
  | [] => none
  | (k', p') :: rest => if k' = kappa then some p' else sigmaFind kappa rest

/-- BruecknerDecorator::CalculateSigma (BruecknerDecorator.cpp
lines 8-18): compute and insert only when the channel has no entry.
The sigma construction (BruecknerSigmaCalculator::GetSecondOrderSigma)
is an external service, abstracted as `compute`.  The second returned
component counts how many sigma computations were performed. -/
def calculateSigma (compute : Int → SigmaPot) (kappa : Int) (sigmas : SigmaMap) :
    SigmaMap × Nat :=
  match sigmaFind kappa sigmas with
  | some _ => (sigmas, 0)
  | none => (sigmaInsert kappa (compute kappa) sigmas, 1)

/-- The filename "identifier.[kappa].sigma" used by Read and Write
(BruecknerDecorator.cpp lines 37, 52, 62). -/
def sigmaFilename (identifier : String) (kappa : Int) : String :=
  identifier ++ "." ++ toString kappa ++ ".sigma"

/-- BruecknerDecorator::Read (BruecknerDecorator.cpp lines 35-44):
SigmaPotential::Read reports failure as a boolean; the filesystem is
modelled as a partial map from filenames to potentials, `none` being a
failed read.  On failure the map is untouched. -/
def bruecknerRead (fs : String → Option SigmaPot) (identifier : String) (kappa : Int)
    (sigmas : SigmaMap) : SigmaMap :=
  match fs (sigmaFilename identifier kappa) with
  | none => sigmas
  | some p => sigmaInsert kappa p sigmas

/-- BruecknerDecorator::Write(identifier) (BruecknerDecorator.cpp
lines 57-65): writes one file per channel present in the map; the
method is const, so the decorator state is returned unchanged alongside
the emitted (filename, blob) list. -/
def bruecknerWriteAll (identifier : String) (sigmas : SigmaMap) :
    SigmaMap × List (String × SigmaPot) :=
  (sigmas, sigmas.map (fun p => (sigmaFilename identifier p.1, p.2)))

/-- BruecknerDecorator::CalculateExtraNonlocal (BruecknerDecorator.cpp
lines 135-162).  `deriv` stands for Interpolator::GetDerivative with
6-point interpolation (external). -/
def calculateExtraNonlocal (lambda : ℚ) (deriv : List ℚ → List ℚ) (sigmas : SigmaMap)
    (s : SpinorFn) (includeDerivative : Bool) : SpinorFn :=
  match sigmaFind s.kappa sigmas with
  | none => zeroSpinor s.kappa
  | some sigma =>
    let applied := if s.size < sigma.sz then sigma.app (spinorResize s sigma.sz)
                   else sigma.app s
    let ret := spinorScale (-lambda) applied
    if includeDerivative then { ret with dfdr := deriv ret.f, dgdr := deriv ret.g }
    else ret

/-- BruecknerDecorator::GetODEFunction (BruecknerDecorator.cpp
lines 94-103).  wrappedW gives the wrapped operator's (w[0], w[1]). -/
def bGetODEFunction (wrappedW : Nat → SpinorFn → ℚ × ℚ) (alpha : ℚ)
    (includeNonlocal : Bool) (pot : SpinorFn) (latticepoint : Nat) (fg : SpinorFn) : ℚ × ℚ :=
  let w := wrappedW latticepoint fg
  if includeNonlocal = true ∧ latticepoint < pot.size then
    (w.1 + alpha * pot.g.getD latticepoint 0, w.2 - alpha * pot.f.getD latticepoint 0)
  else w

/-- BruecknerDecorator::GetODECoefficients (BruecknerDecorator.cpp
lines 105-114): only the constant (nonlocal) terms w_const are
modified. -/
def bGetODECoefficients (wrappedC : Nat → SpinorFn → (ℚ × ℚ) × (ℚ × ℚ) × (ℚ × ℚ))
    (alpha : ℚ) (includeNonlocal : Bool) (pot : SpinorFn)
    (latticepoint : Nat) (fg : SpinorFn) : (ℚ × ℚ) × (ℚ × ℚ) × (ℚ × ℚ) :=
  let w := wrappedC latticepoint fg
  if includeNonlocal = true ∧ latticepoint < pot.size then
    (w.1, w.2.1,
      (w.2.2.1 + alpha * pot.g.getD latticepoint 0, w.2.2.2 - alpha * pot.f.getD latticepoint 0))
  else w

/-- BruecknerDecorator::GetODEJacobian (BruecknerDecorator.cpp
lines 116-125): the jacobian passes through, dwdr gains the derivative
of the stored potential. -/
def bGetODEJacobian (wrappedJ : Nat → SpinorFn → ((ℚ × ℚ) × (ℚ × ℚ)) × (ℚ × ℚ))
    (alpha : ℚ) (includeNonlocal : Bool) (pot : SpinorFn)
    (latticepoint : Nat) (fg : SpinorFn) : ((ℚ × ℚ) × (ℚ × ℚ)) × (ℚ × ℚ) :=
  let w := wrappedJ latticepoint fg
  if includeNonlocal = true ∧ latticepoint < pot.size then
    (w.1, (w.2.1 + alpha * pot.dgdr.getD latticepoint 0,
           w.2.2 - alpha * pot.dfdr.getD latticepoint 0))
  else w

/-- BruecknerDecorator::ApplyTo (BruecknerDecorator.cpp lines 127-133). -/
def bApplyTo (wrappedApply : SpinorFn → SpinorFn) (lambda : ℚ) (deriv : List ℚ → List ℚ)
    (sigmas : SigmaMap) (a : SpinorFn) : SpinorFn :=
  spinorSub (wrappedApply a) (calculateExtraNonlocal lambda deriv sigmas a false)

/-- BruecknerDecorator::Alert (BruecknerDecorator.cpp lines 67-72):
shrink the stored exchange potential when it exceeds the lattice, never
grow it (and never touch the lattice). -/
def bAlertPot (pot : SpinorFn) (latticeSize : Nat) : SpinorFn :=
  if latticeSize < pot.size then spinorResize pot latticeSize else pot

/-! ## Helper lemmas -/

/-- A guarded accumulating foldl is the sum of the guarded terms over
the filtered list. -/
theorem foldl_guard_filter_sum {α : Type} (P : α → Prop) [DecidablePred P] (f : α → ℚ) :
    ∀ (l : List α) (init : ℚ),
      l.foldl (fun acc p => if P p then acc + f p else acc) init
        = init + ((l.filter (fun p => decide (P p))).map f).sum := by
  intro l
  induction l with
  | nil => intro init; simp
  | cons x xs ih =>
    intro init
    by_cases h : P x
    · simp only [List.foldl_cons, if_pos h, List.filter_cons,
        decide_eq_true_eq, h, if_pos, List.map_cons, List.sum_cons, ih]
      ring
    · simp only [List.foldl_cons, if_neg h, List.filter_cons,
        decide_eq_true_eq, h, if_neg, List.map_cons, List.sum_cons, ih]
      simp [h]

/-- Reading every index of a list back in order reproduces the list. -/
theorem range_map_getD (l : List ℚ) :
    (List.range l.length).map (fun i => l.getD i 0) = l := by
  induction l with
  | nil => simp
  | cons x xs ih =>
    rw [List.length_cons, List.range_succ_eq_map, List.map_cons, List.map_map]
    simp only [List.getD_cons_zero, Function.comp_def, List.getD_cons_succ]
    rw [ih]

/-- Subtracting an empty (zero) array is the identity. -/
theorem listSub_nil (a : List ℚ) : listSub a [] = a := by
  unfold listSub
  simp only [List.length_nil, Nat.max_zero, List.getD_nil, sub_zero]
  exact range_map_getD a

/-- listResize gives the value at the index when in range, 0 beyond. -/
theorem listResize_getD (l : List ℚ) (n i : Nat) :
    (listResize l n).getD i 0 = if i < n then l.getD i 0 else 0 := by
  unfold listResize
  by_cases h : i < n
  · rw [if_pos h]
    rw [List.getD_eq_getElem?_getD, List.getElem?_map, List.getElem?_range h]
    simp
  · rw [if_neg h]
    rw [List.getD_eq_getElem?_getD, List.getElem?_map]
    rw [List.getElem?_eq_none (by simpa using Nat.le_of_not_lt h)]
    simp

/-- The resized spinor has exactly the requested extent. -/
theorem spinorResize_size (s : SpinorFn) (n : Nat) : (spinorResize s n).size = n := by
  simp [spinorResize, SpinorFn.size, listResize]

/-- Subtracting the empty spinor is the identity. -/
theorem spinorSub_zero (a : SpinorFn) (kappa : Int) : spinorSub a (zeroSpinor kappa) = a := by
  cases a
  simp [spinorSub, zeroSpinor, listSub_nil]

/-- Every value with the starting parity lying between the bounds is
visited by a step-2 loop. -/
theorem mem_stepTwoRange {lo hi x : Nat} (h1 : lo ≤ x) (h2 : x ≤ hi)
    (h3 : x % 2 = lo % 2) : x ∈ stepTwoRange lo hi := by
  unfold stepTwoRange
  rw [if_neg (by omega)]
  simp only [List.mem_map, List.mem_range]
  exact ⟨(x - lo) / 2, by omega, by omega⟩

/-- sigmaFind after sigmaInsert at the same key. -/
theorem sigmaFind_insert_self (kappa : Int) (p : SigmaPot) (m : SigmaMap) :
    sigmaFind kappa (sigmaInsert kappa p m) = some p := by
  induction m with
  | nil => simp [sigmaInsert, sigmaFind]
  | cons e rest ih =>
    by_cases h : e.1 = kappa
    · simp [sigmaInsert, sigmaFind, h]
    · simp [sigmaInsert, sigmaFind, h, ih]

/-- sigmaFind after sigmaInsert at a different key. -/
theorem sigmaFind_insert_ne (kappa κ' : Int) (p : SigmaPot) (m : SigmaMap)
    (h : κ' ≠ kappa) :
    sigmaFind κ' (sigmaInsert kappa p m) = sigmaFind κ' m := by
  have hkk : ¬ kappa = κ' := fun hx => h hx.symm
  induction m with
  | nil => simp [sigmaInsert, sigmaFind, hkk]
  | cons e rest ih =>
    obtain ⟨k0, p0⟩ := e
    by_cases he : k0 = kappa
    · subst he
      simp [sigmaInsert, sigmaFind, hkk]
    · by_cases he2 : k0 = κ'
      · subst he2
        simp [sigmaInsert, sigmaFind, h, hkk]
      · simp [sigmaInsert, sigmaFind, he, he2, ih]

/-! ## Claim theorems -/

/-- C1: In the two-body valence correction, the accumulated term
R1*R2*coeff is negated exactly when
((TwoJ(a)+TwoJ(b)+TwoJ(c)+TwoJ(d)+TwoJ(alpha)+TwoJ(beta))/2 + k + 1) is
odd and additionally negated exactly when (k1 + k2) is odd; no other
sign factor is applied: the term is exactly the product of the two
parity signs with the signless combination of coefficients, radial
integrals and the energy denominator.  Stated for both implementations
(ValenceMBPTCalculator::CalculateTwoElectronValence and
ValenceCalculator::CalculateTwoElectronValence1). -/
theorem accumulated_term_sign_structure :
    (∀ (ctx : MBPTCtx) (k k1 k2 : Nat) (sa sb sc sd salpha sbeta : OrbitalInfo)
       (raw cab cac cbd ve ea eb R1 R2 : ℚ),
      accumTerm k1 k2 raw cab
          (coeffAlphaBeta ctx k sa sb sc sd salpha sbeta cac cbd ve ea eb) R1 R2
        = minusOneToThePower (exponentSum sa sb sc sd salpha sbeta + k + 1)
          * minusOneToThePower (k1 + k2)
          * accumTermNoSignMBPT ctx k salpha sbeta raw cab cac cbd ve ea eb R1 R2) ∧
    (∀ (ctx : VCCtx) (k k1 k2 : Nat) (sa sb sc sd s3 s4 : Orbital)
       (raw cab cac cbd ve R1 R2 : ℚ),
      accumTerm k1 k2 raw cab (coeff34Signed ctx k sa sb sc sd s3 s4 cac cbd ve) R1 R2
        = minusOneToThePower (exponentSum sa.info sb.info sc.info sd.info s3.info s4.info + k + 1)
          * minusOneToThePower (k1 + k2)
          * accumTermNoSignVC ctx k sa sb sc sd s3 s4 raw cab cac cbd ve R1 R2) := by
  constructor
  · intro ctx k k1 k2 sa sb sc sd salpha sbeta raw cab cac cbd ve ea eb R1 R2
    unfold accumTerm coeffAlphaBeta accumTermNoSignMBPT coeffAlphaBetaNoSign minusOneToThePower
    by_cases h1 : (exponentSum sa sb sc sd salpha sbeta + k + 1) % 2 = 1 <;>
      by_cases h2 : (k1 + k2) % 2 = 1 <;> simp only [h1, h2, if_pos, if_neg, ite_true,
        ite_false, if_true, if_false] <;> ring
  · intro ctx k k1 k2 sa sb sc sd s3 s4 raw cab cac cbd ve R1 R2
    unfold accumTerm coeff34Signed accumTermNoSignVC coeff34NoSign minusOneToThePower
    by_cases h1 : (exponentSum sa.info sb.info sc.info sd.info s3.info s4.info + k + 1) % 2 = 1 <;>
      by_cases h2 : (k1 + k2) % 2 = 1 <;> simp only [h1, h2, if_pos, if_neg, ite_true,
        ite_false, if_true, if_false] <;> ring

/-- C10: In the direct (wavefunction-level) two-body valence
correction, the radial integral actually contracted differs from the
bare two-stage Coulomb integral by the isotope-shift cross term (the
nuclear inverse mass times the two isotope-shift integrals of the
corresponding orbital pairs) exactly when the nuclear inverse mass is
nonzero and the relevant multipole (k1 for R1, k2 for R2, the outer k
in CalculateTwoElectronValence2) equals 1; otherwise the bare integral
is used unmodified. -/
theorem isotope_shift_cross_term (ctx : VCCtx) (k k1 k2 : Nat) (sa sb sc sd s3 s4 : Orbital) :
    radialR1 ctx k1 sa sb s3 s4
      = radialR1Base ctx k1 sa sb s3 s4
        - (if ctx.nuclearInverseMass ≠ 0 ∧ k1 = 1 then
            ctx.nuclearInverseMass * ctx.isotopeShift s3 sa * ctx.isotopeShift s4 sb
          else 0) ∧
    radialR2 ctx k2 sc sd s3 s4
      = radialR2Base ctx k2 sc sd s3 s4
        - (if ctx.nuclearInverseMass ≠ 0 ∧ k2 = 1 then
            ctx.nuclearInverseMass * ctx.isotopeShift s3 sc * ctx.isotopeShift s4 sd
          else 0) ∧
    v2R1HoleA ctx k sb sc sd s3
      = contractPot ctx (ctx.fastCoulomb (densityProd sb sd) k (min sb.size sd.size)) s3 sc
        - (if ctx.nuclearInverseMass ≠ 0 ∧ k = 1 then
            ctx.nuclearInverseMass * ctx.isotopeShift sb sd * ctx.isotopeShift s3 sc
          else 0) := by
  refine ⟨?_, ?_, ?_⟩
  · unfold radialR1
    by_cases h : ctx.nuclearInverseMass ≠ 0 ∧ k1 = 1 <;> simp [h]
  · unfold radialR2
    by_cases h : ctx.nuclearInverseMass ≠ 0 ∧ k2 = 1 <;> simp [h]
  · unfold v2R1HoleA smsBD
    by_cases h : ctx.nuclearInverseMass ≠ 0 ∧ k = 1
    · simp only [if_pos h]
      by_cases h0 : ctx.nuclearInverseMass * ctx.isotopeShift sb sd = 0
      · simp [h0]
      · simp [h0]
    · simp [h]

/-- C2 counterexample: for external orbital kappa = 7 (L = 7, 2J = 13)
against intermediate kappa = -8 (L = 7, 2J = 15), the internal
multipole k1 = 14 satisfies the triangle rules (parity and the 3j
triangle inequalities) but is not visited by the loop of
CalculateTwoElectronValence1, which is capped at MAX_K = 12. -/
theorem kRangeVC_omits_triangle_allowed_multipole :
    triangleAllowed ⟨⟨1, 7⟩, 0, [], []⟩ ⟨⟨1, -8⟩, 0, [], []⟩ 14 ∧
      14 ∉ kRangeVC ⟨⟨1, 7⟩, 0, [], []⟩ ⟨⟨1, -8⟩, 0, [], []⟩ := by
  decide

/-- C2 (amended): the internal multipole ranges of
CalculateTwoElectronValence1 start at the parity of the respective L
sum and step by 2, and they contain every triangle-allowed multipole up
to the cutoff MAX_K = 12 (triangle-allowed multipoles above MAX_K are
omitted, per the counterexample). -/
theorem kRangeVC_complete_up_to_MAX_K (x y : Orbital) (k : Nat)
    (h : triangleAllowed x y k) (hmax : k ≤ MAX_K) : k ∈ kRangeVC x y := by
  obtain ⟨hpar, _, _, _⟩ := h
  exact mem_stepTwoRange (by omega) hmax (by omega)

/-- C2 witness: the amended range-completeness theorem applied at a
concrete triangle-allowed multipole. -/
theorem kRangeVC_complete_up_to_MAX_K_witness :
    triangleAllowed ⟨⟨1, -1⟩, 0, [], []⟩ ⟨⟨1, -1⟩, 0, [], []⟩ 0 ∧ 0 ≤ MAX_K ∧
      0 ∈ kRangeVC ⟨⟨1, -1⟩, 0, [], []⟩ ⟨⟨1, -1⟩, 0, [], []⟩ :=
  ⟨by decide, by decide,
    kRangeVC_complete_up_to_MAX_K ⟨⟨1, -1⟩, 0, [], []⟩ ⟨⟨1, -1⟩, 0, [], []⟩ 0
      (by decide) (by decide)⟩

/-- C3: an intermediate pair contributes to the two-body valence
correction only if the two L-sum parity checks pass and (at least one
orbital of) the pair is in Q-space; a pair failing any condition
contributes nothing and triggers no radial-integral evaluation (the
second component, counting FastCoulombIntegrate calls resp.
GetTwoElectronIntegral fetches, is zero).  Stated for
ValenceCalculator::CalculateTwoElectronValence1 (where Q-space
membership is PQN >= 5 of either intermediate) and for
ValenceMBPTCalculator::CalculateTwoElectronValence (where it is the
InQSpace test on the pair). -/
theorem pair_pruning_selection_rules :
    (∀ (ctx : VCCtx) (k : Nat) (sa sb sc sd s3 s4 : Orbital) (cac cbd ve : ℚ),
      ¬((sa.L + s3.L) % 2 = (sb.L + s4.L) % 2 ∧
        (s3.L + sc.L) % 2 = (sd.L + s4.L) % 2 ∧
        (5 ≤ s3.pqn ∨ 5 ≤ s4.pqn)) →
      pairContribVC ctx k sa sb sc sd s3 s4 cac cbd ve = (0, 0)) ∧
    (∀ (ctx : MBPTCtx) (k : Nat) (sa sb sc sd : OrbitalInfo) (cac cbd ve : ℚ)
       (alpha beta : OrbitalInfo × ℚ),
      ¬(ctx.inQSpace2 alpha.1 beta.1 = true ∧
        (sa.L + alpha.1.L) % 2 = (sb.L + beta.1.L) % 2 ∧
        (alpha.1.L + sc.L) % 2 = (beta.1.L + sd.L) % 2) →
      pairContribMBPT ctx k sa sb sc sd cac cbd ve alpha beta = (0, 0)) := by
  constructor
  · intro ctx k sa sb sc sd s3 s4 cac cbd ve h
    have hguard : ¬((5 ≤ s3.pqn ∨ 5 ≤ s4.pqn) ∧ coeff34Pre k sa sb sc sd s3 s4 ≠ 0) := by
      rintro ⟨hpqn, hc⟩
      apply h
      by_cases p1 : (sa.L + s3.L) % 2 = (sb.L + s4.L) % 2
      · by_cases p2 : (s3.L + sc.L) % 2 = (sd.L + s4.L) % 2
        · exact ⟨p1, p2, hpqn⟩
        · exact absurd (by simp [coeff34Pre, p2]) hc
      · exact absurd (by simp [coeff34Pre, p1]) hc
    unfold pairContribVC
    rw [if_neg hguard]
  · intro ctx k sa sb sc sd cac cbd ve alpha beta h
    simp only [pairContribMBPT]
    rw [if_neg h]

/-- C5: the two-body valence correction returns exactly zero whenever
either outer triangle coefficient is zero, and in that case no
intermediate-pair loop iteration is performed (and no radial integral
is fetched or evaluated).  Stated for both implementations. -/
theorem outer_triangle_zero_short_circuit :
    (∀ (ctx : VCCtx) (k : Nat) (sa sb sc sd : Orbital) (excited : List Orbital),
      ctx.electron3j sa.TwoJ sc.TwoJ k = 0 ∨ ctx.electron3j sb.TwoJ sd.TwoJ k = 0 →
      calculateTwoElectronValence1 ctx k sa sb sc sd excited = (0, 0) ∧
        pairIterationsVC ctx k sa sb sc sd excited = 0) ∧
    (∀ (ctx : MBPTCtx) (k : Nat) (sa sb sc sd : OrbitalInfo)
       (excited : List (OrbitalInfo × ℚ)),
      ctx.electron3j sa.TwoJ sc.TwoJ k = 0 ∨ ctx.electron3j sb.TwoJ sd.TwoJ k = 0 →
      calculateTwoElectronValenceMBPT ctx k sa sb sc sd excited = (0, 0) ∧
        pairIterationsMBPT ctx k sa sb sc sd excited = 0) := by
  constructor
  · intro ctx k sa sb sc sd excited h
    constructor
    · unfold calculateTwoElectronValence1
      rw [if_pos h]
    · unfold pairIterationsVC
      rw [if_pos h]
  · intro ctx k sa sb sc sd excited h
    constructor
    · unfold calculateTwoElectronValenceMBPT
      rw [if_pos h]
    · unfold pairIterationsMBPT
      rw [if_pos h]

/-- A concrete direct-integration context whose angular services all
return 1 (used for witnesses). -/
def witnessVCCtx1 : VCCtx :=
  { electron3j := fun _ _ _ => 1
    wigner6j := fun _ _ _ _ _ _ => 1
    fastCoulomb := fun _ _ _ _ => 1
    isotopeShift := fun _ _ => 1
    hamiltonianME := fun _ _ => 1
    dR := fun _ => 1
    nuclearInverseMass := 0
    valenceEnergy := fun _ => 1
    delta := 1 }

/-- A concrete direct-integration context whose 3j service returns 0
(used for witnesses). -/
def witnessVCCtx0 : VCCtx :=
  { witnessVCCtx1 with electron3j := fun _ _ _ => 0 }

/-- A concrete cached-integral context whose angular services all
return 1 and whose Q-space tests fail (used for witnesses). -/
def witnessMBPTCtx1 : MBPTCtx :=
  { electron3j := fun _ _ _ => 1
    wigner6j := fun _ _ _ _ _ _ => 1
    twoElectronIntegral := fun _ _ _ _ _ => 1
    oneBodyME := fun _ _ => 1
    inQSpace1 := fun _ => false
    inQSpace2 := fun _ _ => false
    valenceEnergy := fun _ => 1
    delta := 1
    kminF := fun _ _ => 0
    kmaxF := fun _ _ => 2 }

/-- A concrete cached-integral context whose 3j service returns 0
(used for witnesses). -/
def witnessMBPTCtx0 : MBPTCtx :=
  { witnessMBPTCtx1 with electron3j := fun _ _ _ => 0 }

/-- A concrete low-lying orbital (pqn = 1, kappa = -1). -/
def witnessOrb : Orbital := ⟨⟨1, -1⟩, 0, [1], [0]⟩

/-- C3 witness: the pruning theorem applied at a concrete non-Q-space
pair (both implementations). -/
theorem pair_pruning_selection_rules_witness :
    pairContribVC witnessVCCtx1 0 witnessOrb witnessOrb witnessOrb witnessOrb
        witnessOrb witnessOrb 1 1 1 = (0, 0) ∧
      pairContribMBPT witnessMBPTCtx1 0 ⟨1, -1⟩ ⟨1, -1⟩ ⟨1, -1⟩ ⟨1, -1⟩ 1 1 1
        (⟨1, -1⟩, 0) (⟨1, -1⟩, 0) = (0, 0) :=
  ⟨pair_pruning_selection_rules.1 witnessVCCtx1 0 witnessOrb witnessOrb witnessOrb
      witnessOrb witnessOrb witnessOrb 1 1 1 (by decide),
    pair_pruning_selection_rules.2 witnessMBPTCtx1 0 ⟨1, -1⟩ ⟨1, -1⟩ ⟨1, -1⟩ ⟨1, -1⟩ 1 1 1
      (⟨1, -1⟩, 0) (⟨1, -1⟩, 0) (by decide)⟩

/-- C5 witness: the short-circuit theorem applied at concrete contexts
whose outer 3j coefficient is zero (both implementations). -/
theorem outer_triangle_zero_short_circuit_witness :
    (calculateTwoElectronValence1 witnessVCCtx0 0 witnessOrb witnessOrb witnessOrb
        witnessOrb [witnessOrb] = (0, 0) ∧
      pairIterationsVC witnessVCCtx0 0 witnessOrb witnessOrb witnessOrb witnessOrb
        [witnessOrb] = 0) ∧
    (calculateTwoElectronValenceMBPT witnessMBPTCtx0 0 ⟨1, -1⟩ ⟨1, -1⟩ ⟨1, -1⟩ ⟨1, -1⟩
        [(⟨1, -1⟩, 0)] = (0, 0) ∧
      pairIterationsMBPT witnessMBPTCtx0 0 ⟨1, -1⟩ ⟨1, -1⟩ ⟨1, -1⟩ ⟨1, -1⟩
        [(⟨1, -1⟩, 0)] = 0) :=
  ⟨outer_triangle_zero_short_circuit.1 witnessVCCtx0 0 witnessOrb witnessOrb witnessOrb
      witnessOrb [witnessOrb] (Or.inl rfl),
    outer_triangle_zero_short_circuit.2 witnessMBPTCtx0 0 ⟨1, -1⟩ ⟨1, -1⟩ ⟨1, -1⟩ ⟨1, -1⟩
      [(⟨1, -1⟩, 0)] (Or.inl rfl)⟩

/-- With matching kappas, ValenceCalculator::GetOneElectronValence is
the sum over the excited intermediates of PQN >= 5 and matching kappa of
the code's terms HamiltonianMatrixElement(s4,si) *
HamiltonianMatrixElement(s4,sf) over the perturbative denominator
(ValenceCalculator.cpp lines 53-65). -/
theorem getOneElectronValence_matching (ctx : VCCtx) (si sf : Orbital)
    (excited : List Orbital) (h : si.kappa = sf.kappa) :
    getOneElectronValence ctx si sf excited
      = ((excited.filter (fun s4 => decide (5 ≤ s4.pqn ∧ s4.kappa = si.kappa))).map
          (fun s4 => (ctx.hamiltonianME s4 si * ctx.hamiltonianME s4 sf) /
            oneBodyDenominator (ctx.valenceEnergy si.kappa) s4.energy ctx.delta)).sum := by
  unfold getOneElectronValence
  rw [if_neg (fun hne => hne h)]
  unfold calculateOneElectronValence1
  rw [foldl_guard_filter_sum (fun s4 => 5 ≤ s4.pqn ∧ s4.kappa = si.kappa)
    (fun s4 => (ctx.hamiltonianME s4 si * ctx.hamiltonianME s4 sf) /
      oneBodyDenominator (ctx.valenceEnergy si.kappa) s4.energy ctx.delta) excited 0]
  rw [zero_add]

/-- C4: the one-body valence/subtraction correction returns exactly 0
whenever the two external kappas differ (for every cache/orbital-set
state), and with matching kappas it returns the sum over every Q-space
intermediate of matching kappa of
matrix_element(s1,alpha)*matrix_element(alpha,s2) divided by
(ValenceEnergy(s1) - Energy(alpha) + delta).  Both cited
implementations are covered: ValenceMBPTCalculator::GetOneElectronSubtraction
accumulates the claim's products literally;
ValenceCalculator::GetOneElectronValence accumulates
HamiltonianMatrixElement(alpha,s1)*HamiltonianMatrixElement(alpha,s2),
which is stated as the code writes it and, under symmetry of the
Hamiltonian matrix-element service (the actual operator is symmetric),
equals the claim's matrix_element(s1,alpha)*matrix_element(alpha,s2)
form. -/
theorem one_electron_correction_spec :
    (∀ (ctx : MBPTCtx) (sa sb : OrbitalInfo) (high : List (OrbitalInfo × ℚ)),
      sa.kappa ≠ sb.kappa → getOneElectronSubtraction ctx sa sb high = 0) ∧
    (∀ (ctx : MBPTCtx) (sa sb : OrbitalInfo) (high : List (OrbitalInfo × ℚ)),
      sa.kappa = sb.kappa →
      getOneElectronSubtraction ctx sa sb high
        = ((high.filter
              (fun p => decide (ctx.inQSpace1 p.1 = true ∧ sa.kappa = p.1.kappa))).map
            (fun p => (ctx.oneBodyME sa p.1 * ctx.oneBodyME p.1 sb) /
              oneBodyDenominator (ctx.valenceEnergy sa.kappa) p.2 ctx.delta)).sum) ∧
    (∀ (ctx : VCCtx) (si sf : Orbital) (excited : List Orbital),
      si.kappa ≠ sf.kappa → getOneElectronValence ctx si sf excited = 0) ∧
    (∀ (ctx : VCCtx) (si sf : Orbital) (excited : List Orbital),
      si.kappa = sf.kappa →
      getOneElectronValence ctx si sf excited
        = ((excited.filter (fun s4 => decide (5 ≤ s4.pqn ∧ s4.kappa = si.kappa))).map
            (fun s4 => (ctx.hamiltonianME s4 si * ctx.hamiltonianME s4 sf) /
              oneBodyDenominator (ctx.valenceEnergy si.kappa) s4.energy ctx.delta)).sum) ∧
    (∀ (ctx : VCCtx) (si sf : Orbital) (excited : List Orbital),
      (∀ x y : Orbital, ctx.hamiltonianME x y = ctx.hamiltonianME y x) →
      si.kappa = sf.kappa →
      getOneElectronValence ctx si sf excited
        = ((excited.filter (fun s4 => decide (5 ≤ s4.pqn ∧ s4.kappa = si.kappa))).map
            (fun s4 => (ctx.hamiltonianME si s4 * ctx.hamiltonianME s4 sf) /
              oneBodyDenominator (ctx.valenceEnergy si.kappa) s4.energy ctx.delta)).sum) := by
  refine ⟨?_, ?_, ?_, ?_, ?_⟩
  · intro ctx sa sb high h
    unfold getOneElectronSubtraction
    rw [if_pos h]
  · intro ctx sa sb high h
    unfold getOneElectronSubtraction
    rw [if_neg (fun hne => hne h)]
    unfold calculateOneElectronSub
    rw [foldl_guard_filter_sum (fun p => ctx.inQSpace1 p.1 = true ∧ sa.kappa = p.1.kappa)
      (fun p => (ctx.oneBodyME sa p.1 * ctx.oneBodyME p.1 sb) /
        oneBodyDenominator (ctx.valenceEnergy sa.kappa) p.2 ctx.delta) high 0]
    rw [zero_add]
  · intro ctx si sf excited h
    unfold getOneElectronValence
    rw [if_pos h]
  · intro ctx si sf excited h
    exact getOneElectronValence_matching ctx si sf excited h
  · intro ctx si sf excited hsym h
    rw [getOneElectronValence_matching ctx si sf excited h]
    congr 1
    refine List.map_congr_left (fun s4 _ => ?_)
    rw [hsym s4 si]

/-- C6: every perturbative denominator has the form
(ValenceEnergy - E + delta), resp. the two-energy analogue; with
delta nonzero and an intermediate exactly degenerate with the valence
reference, the denominator equals delta exactly, is nonzero (so no
division by zero occurs), and the accumulated term equals the same
expression with denominator exactly delta. -/
theorem denominator_regularization :
    (∀ (ve e d num : ℚ), d ≠ 0 → e = ve →
      oneBodyDenominator ve e d = d ∧ oneBodyDenominator ve e d ≠ 0 ∧
        num / oneBodyDenominator ve e d = num / d) ∧
    (∀ (ve ea eb d num : ℚ), d ≠ 0 → ea + eb = ve →
      pairDenominator ve ea eb d = d ∧ pairDenominator ve ea eb d ≠ 0 ∧
        num / pairDenominator ve ea eb d = num / d) ∧
    (∀ (ctx : MBPTCtx) (sa sb salpha : OrbitalInfo) (e : ℚ),
      ctx.delta ≠ 0 → ctx.inQSpace1 salpha = true → sa.kappa = salpha.kappa →
      e = ctx.valenceEnergy sa.kappa →
      calculateOneElectronSub ctx sa sb [(salpha, e)]
        = (ctx.oneBodyME sa salpha * ctx.oneBodyME salpha sb) / ctx.delta) := by
  refine ⟨?_, ?_, ?_⟩
  · intro ve e d num hd he
    have h : oneBodyDenominator ve e d = d := by
      unfold oneBodyDenominator; rw [he]; ring
    exact ⟨h, by rw [h]; exact hd, by rw [h]⟩
  · intro ve ea eb d num hd he
    have h : pairDenominator ve ea eb d = d := by
      unfold pairDenominator; rw [← he]; ring
    exact ⟨h, by rw [h]; exact hd, by rw [h]⟩
  · intro ctx sa sb salpha e hd hq hk he
    subst he
    unfold calculateOneElectronSub
    rw [List.foldl_cons, List.foldl_nil, if_pos ⟨hq, hk⟩, zero_add]
    have h : oneBodyDenominator (ctx.valenceEnergy sa.kappa) (ctx.valenceEnergy sa.kappa)
        ctx.delta = ctx.delta := by
      unfold oneBodyDenominator; ring
    rw [h]

/-- A concrete cached-integral context whose Q-space test always
succeeds (used for witnesses). -/
def witnessMBPTCtxQ : MBPTCtx :=
  { witnessMBPTCtx1 with inQSpace1 := fun _ => true }

/-- C4 witness: the one-body contract applied at concrete mismatched
and matching kappa pairs, for both implementations. -/
theorem one_electron_correction_spec_witness :
    getOneElectronSubtraction witnessMBPTCtx1 ⟨1, -1⟩ ⟨1, 1⟩ [] = 0 ∧
    getOneElectronSubtraction witnessMBPTCtx1 ⟨1, -1⟩ ⟨2, -1⟩ [(⟨3, -1⟩, 0)]
      = (([(⟨3, -1⟩, (0 : ℚ))].filter
            (fun p => decide (witnessMBPTCtx1.inQSpace1 p.1 = true ∧
              (⟨1, -1⟩ : OrbitalInfo).kappa = p.1.kappa))).map
          (fun p => (witnessMBPTCtx1.oneBodyME ⟨1, -1⟩ p.1 *
              witnessMBPTCtx1.oneBodyME p.1 ⟨2, -1⟩) /
            oneBodyDenominator
              (witnessMBPTCtx1.valenceEnergy (⟨1, -1⟩ : OrbitalInfo).kappa)
              p.2 witnessMBPTCtx1.delta)).sum ∧
    getOneElectronValence witnessVCCtx1 witnessOrb ⟨⟨1, 1⟩, 0, [], []⟩ [] = 0 ∧
    getOneElectronValence witnessVCCtx1 witnessOrb ⟨⟨2, -1⟩, 0, [], []⟩ [⟨⟨5, -1⟩, 1, [], []⟩]
      = (([⟨⟨5, -1⟩, 1, [], []⟩].filter
            (fun s4 => decide (5 ≤ s4.pqn ∧ s4.kappa = witnessOrb.kappa))).map
          (fun s4 => (witnessVCCtx1.hamiltonianME s4 witnessOrb *
              witnessVCCtx1.hamiltonianME s4 ⟨⟨2, -1⟩, 0, [], []⟩) /
            oneBodyDenominator (witnessVCCtx1.valenceEnergy witnessOrb.kappa)
              s4.energy witnessVCCtx1.delta)).sum ∧
    getOneElectronValence witnessVCCtx1 witnessOrb ⟨⟨2, -1⟩, 0, [], []⟩ [⟨⟨5, -1⟩, 1, [], []⟩]
      = (([⟨⟨5, -1⟩, 1, [], []⟩].filter
            (fun s4 => decide (5 ≤ s4.pqn ∧ s4.kappa = witnessOrb.kappa))).map
          (fun s4 => (witnessVCCtx1.hamiltonianME witnessOrb s4 *
              witnessVCCtx1.hamiltonianME s4 ⟨⟨2, -1⟩, 0, [], []⟩) /
            oneBodyDenominator (witnessVCCtx1.valenceEnergy witnessOrb.kappa)
              s4.energy witnessVCCtx1.delta)).sum :=
  ⟨one_electron_correction_spec.1 witnessMBPTCtx1 ⟨1, -1⟩ ⟨1, 1⟩ [] (by decide),
    one_electron_correction_spec.2.1 witnessMBPTCtx1 ⟨1, -1⟩ ⟨2, -1⟩ [(⟨3, -1⟩, 0)] (by decide),
    one_electron_correction_spec.2.2.1 witnessVCCtx1 witnessOrb ⟨⟨1, 1⟩, 0, [], []⟩ []
      (by decide),
    one_electron_correction_spec.2.2.2.1 witnessVCCtx1 witnessOrb ⟨⟨2, -1⟩, 0, [], []⟩
      [⟨⟨5, -1⟩, 1, [], []⟩] (by decide),
    one_electron_correction_spec.2.2.2.2 witnessVCCtx1 witnessOrb ⟨⟨2, -1⟩, 0, [], []⟩
      [⟨⟨5, -1⟩, 1, [], []⟩] (fun _ _ => rfl) (by decide)⟩

/-- C6 witness: the regularization theorem applied at concrete
degenerate energies. -/
theorem denominator_regularization_witness :
    (oneBodyDenominator 5 5 1 = 1 ∧ oneBodyDenominator 5 5 1 ≠ 0 ∧
      (3 : ℚ) / oneBodyDenominator 5 5 1 = 3 / 1) ∧
    (pairDenominator 5 2 3 1 = 1 ∧ pairDenominator 5 2 3 1 ≠ 0 ∧
      (3 : ℚ) / pairDenominator 5 2 3 1 = 3 / 1) ∧
    calculateOneElectronSub witnessMBPTCtxQ ⟨1, -1⟩ ⟨2, -1⟩ [(⟨3, -1⟩, 1)]
      = (witnessMBPTCtxQ.oneBodyME ⟨1, -1⟩ ⟨3, -1⟩ *
          witnessMBPTCtxQ.oneBodyME ⟨3, -1⟩ ⟨2, -1⟩) / witnessMBPTCtxQ.delta :=
  ⟨denominator_regularization.1 5 5 1 3 (by norm_num) rfl,
    denominator_regularization.2.1 5 2 3 1 3 (by norm_num) (by norm_num),
    denominator_regularization.2.2 witnessMBPTCtxQ ⟨1, -1⟩ ⟨2, -1⟩ ⟨3, -1⟩ 1
      (by decide) rfl rfl rfl⟩

/-- When no sigma is stored for the spinor's kappa channel,
CalculateExtraNonlocal returns the default-constructed (empty) spinor. -/
theorem calculateExtraNonlocal_none (lambda : ℚ) (deriv : List ℚ → List ℚ)
    (sigmas : SigmaMap) (s : SpinorFn) (b : Bool)
    (h : sigmaFind s.kappa sigmas = none) :
    calculateExtraNonlocal lambda deriv sigmas s b = zeroSpinor s.kappa := by
  simp [calculateExtraNonlocal, h]

/-- C7: the BruecknerDecorator modifies the wrapped operator's outputs
only inside the injected region: at every lattice point at or beyond
the stored exchange potential's extent the three ODE contracts return
the wrapped values unchanged; with no computed sigma for the channel,
the extra nonlocal term is the empty spinor and ApplyTo returns the
wrapped application unchanged; a wavefunction shorter than the stored
sigma's extent is zero-padded to that extent before the sigma is
applied; and Alert only ever shrinks the stored potential (the lattice
is never grown). -/
theorem brueckner_frame_effect :
    (∀ (wrappedW : Nat → SpinorFn → ℚ × ℚ) (alpha : ℚ) (inc : Bool) (pot : SpinorFn)
       (lp : Nat) (fg : SpinorFn), pot.size ≤ lp →
      bGetODEFunction wrappedW alpha inc pot lp fg = wrappedW lp fg) ∧
    (∀ (wrappedC : Nat → SpinorFn → (ℚ × ℚ) × (ℚ × ℚ) × (ℚ × ℚ)) (alpha : ℚ) (inc : Bool)
       (pot : SpinorFn) (lp : Nat) (fg : SpinorFn), pot.size ≤ lp →
      bGetODECoefficients wrappedC alpha inc pot lp fg = wrappedC lp fg) ∧
    (∀ (wrappedJ : Nat → SpinorFn → ((ℚ × ℚ) × (ℚ × ℚ)) × (ℚ × ℚ)) (alpha : ℚ) (inc : Bool)
       (pot : SpinorFn) (lp : Nat) (fg : SpinorFn), pot.size ≤ lp →
      bGetODEJacobian wrappedJ alpha inc pot lp fg = wrappedJ lp fg) ∧
    (∀ (lambda : ℚ) (deriv : List ℚ → List ℚ) (sigmas : SigmaMap) (s : SpinorFn) (b : Bool),
      sigmaFind s.kappa sigmas = none →
      calculateExtraNonlocal lambda deriv sigmas s b = zeroSpinor s.kappa) ∧
    (∀ (wrappedApply : SpinorFn → SpinorFn) (lambda : ℚ) (deriv : List ℚ → List ℚ)
       (sigmas : SigmaMap) (a : SpinorFn),
      sigmaFind a.kappa sigmas = none →
      bApplyTo wrappedApply lambda deriv sigmas a = wrappedApply a) ∧
    (∀ (lambda : ℚ) (deriv : List ℚ → List ℚ) (sigmas : SigmaMap) (s : SpinorFn) (b : Bool)
       (sigma : SigmaPot),
      sigmaFind s.kappa sigmas = some sigma → s.size < sigma.sz →
      calculateExtraNonlocal lambda deriv sigmas s b
          = calculateExtraNonlocal lambda deriv sigmas (spinorResize s sigma.sz) b ∧
        (spinorResize s sigma.sz).size = sigma.sz ∧
        (∀ i : Nat, (spinorResize s sigma.sz).f.getD i 0
          = if i < sigma.sz then s.f.getD i 0 else 0)) ∧
    (∀ (pot : SpinorFn) (latticeSize : Nat), (bAlertPot pot latticeSize).size ≤ pot.size) := by
  refine ⟨?_, ?_, ?_, ?_, ?_, ?_, ?_⟩
  · intro wrappedW alpha inc pot lp fg h
    unfold bGetODEFunction
    rw [if_neg (fun hc => absurd hc.2 (Nat.not_lt.mpr h))]
  · intro wrappedC alpha inc pot lp fg h
    unfold bGetODECoefficients
    rw [if_neg (fun hc => absurd hc.2 (Nat.not_lt.mpr h))]
  · intro wrappedJ alpha inc pot lp fg h
    unfold bGetODEJacobian
    rw [if_neg (fun hc => absurd hc.2 (Nat.not_lt.mpr h))]
  · exact calculateExtraNonlocal_none
  · intro wrappedApply lambda deriv sigmas a h
    unfold bApplyTo
    rw [calculateExtraNonlocal_none lambda deriv sigmas a false h]
    exact spinorSub_zero _ _
  · intro lambda deriv sigmas s b sigma h hs
    have hk : (spinorResize s sigma.sz).kappa = s.kappa := rfl
    have hsz : ¬ (spinorResize s sigma.sz).size < sigma.sz := by
      rw [spinorResize_size]; omega
    refine ⟨?_, spinorResize_size s sigma.sz, fun i => listResize_getD s.f sigma.sz i⟩
    simp only [calculateExtraNonlocal, hk, h]
    rw [if_pos hs, if_neg hsz]
  · intro pot latticeSize
    unfold bAlertPot
    by_cases h : latticeSize < pot.size
    · rw [if_pos h, spinorResize_size]
      omega
    · rw [if_neg h]

/-- C8: CalculateSigma is idempotent per angular channel: with a stored
sigma for kappa it performs no computation and leaves the map (and the
stored potential) unchanged; with no entry it computes exactly once and
inserts, leaving every other channel unchanged; a second call after a
first is always computation-free and state-preserving. -/
theorem calculateSigma_idempotent :
    (∀ (compute : Int → SigmaPot) (kappa : Int) (sigmas : SigmaMap) (p : SigmaPot),
      sigmaFind kappa sigmas = some p →
      calculateSigma compute kappa sigmas = (sigmas, 0)) ∧
    (∀ (compute : Int → SigmaPot) (kappa : Int) (sigmas : SigmaMap),
      sigmaFind kappa sigmas = none →
      (calculateSigma compute kappa sigmas).2 = 1 ∧
      sigmaFind kappa (calculateSigma compute kappa sigmas).1 = some (compute kappa) ∧
      (∀ κ' : Int, κ' ≠ kappa →
        sigmaFind κ' (calculateSigma compute kappa sigmas).1 = sigmaFind κ' sigmas)) ∧
    (∀ (compute : Int → SigmaPot) (kappa : Int) (sigmas : SigmaMap),
      calculateSigma compute kappa (calculateSigma compute kappa sigmas).1
        = ((calculateSigma compute kappa sigmas).1, 0)) := by
  refine ⟨?_, ?_, ?_⟩
  · intro compute kappa sigmas p h
    simp [calculateSigma, h]
  · intro compute kappa sigmas h
    refine ⟨by simp [calculateSigma, h], by simp [calculateSigma, h, sigmaFind_insert_self],
      fun κ' hne => ?_⟩
    simp [calculateSigma, h, sigmaFind_insert_ne kappa κ' _ _ hne]
  · intro compute kappa sigmas
    cases hfind : sigmaFind kappa sigmas with
    | some p => simp [calculateSigma, hfind]
    | none => simp [calculateSigma, hfind, sigmaFind_insert_self]

/-- C9: Read targets exactly the file "identifier.kappa.sigma" in the
modelled filesystem; when that read fails the sigma map is completely
unchanged (the channel stays uncomputed), when it succeeds the channel
holds the loaded potential and all other channels are untouched;
Write(identifier) emits one (filename, blob) pair per stored channel,
with the filename built by sigmaFilename, and leaves the decorator
state unchanged. -/
theorem brueckner_read_write :
    (∀ (fs : String → Option SigmaPot) (identifier : String) (kappa : Int)
       (sigmas : SigmaMap),
      fs (sigmaFilename identifier kappa) = none →
      bruecknerRead fs identifier kappa sigmas = sigmas) ∧
    (∀ (fs : String → Option SigmaPot) (identifier : String) (kappa : Int)
       (sigmas : SigmaMap) (p : SigmaPot),
      fs (sigmaFilename identifier kappa) = some p →
      sigmaFind kappa (bruecknerRead fs identifier kappa sigmas) = some p ∧
      (∀ κ' : Int, κ' ≠ kappa →
        sigmaFind κ' (bruecknerRead fs identifier kappa sigmas) = sigmaFind κ' sigmas)) ∧
    (∀ (identifier : String) (sigmas : SigmaMap),
      (bruecknerWriteAll identifier sigmas).1 = sigmas ∧
      (bruecknerWriteAll identifier sigmas).2.length = sigmas.length ∧
      ∀ e ∈ sigmas, (sigmaFilename identifier e.1, e.2) ∈ (bruecknerWriteAll identifier sigmas).2) := by
  refine ⟨?_, ?_, ?_⟩
  · intro fs identifier kappa sigmas h
    simp [bruecknerRead, h]
  · intro fs identifier kappa sigmas p h
    refine ⟨by simp [bruecknerRead, h, sigmaFind_insert_self], fun κ' hne => ?_⟩
    simp [bruecknerRead, h, sigmaFind_insert_ne kappa κ' _ _ hne]
  · intro identifier sigmas
    refine ⟨rfl, by simp [bruecknerWriteAll], fun e he => ?_⟩
    exact List.mem_map_of_mem _ he

/-- A concrete sigma potential of extent 2 (identity action), used for
witnesses. -/
def witnessSigmaPot : SigmaPot := ⟨2, fun s => s⟩

/-- A concrete spinor of extent 1 on channel kappa = -1, used for
witnesses. -/
def witnessSpinor : SpinorFn := ⟨-1, [1], [2], [3], [4]⟩

/-- C7 witness: the frame-effect theorem applied at a lattice point
beyond the potential, at an empty sigma map, and at a stored sigma
wider than the wavefunction. -/
theorem brueckner_frame_effect_witness :
    bGetODEFunction (fun lp _ => ((lp : ℚ), 0)) 1 true witnessSpinor 2 (zeroSpinor (-1))
      = (fun (lp : Nat) (_ : SpinorFn) => ((lp : ℚ), 0)) 2 (zeroSpinor (-1)) ∧
    calculateExtraNonlocal 1 id [] witnessSpinor false = zeroSpinor witnessSpinor.kappa ∧
    bApplyTo id 1 id [] witnessSpinor = id witnessSpinor ∧
    calculateExtraNonlocal 1 id [((-1 : Int), witnessSigmaPot)] witnessSpinor false
      = calculateExtraNonlocal 1 id [((-1 : Int), witnessSigmaPot)]
          (spinorResize witnessSpinor witnessSigmaPot.sz) false ∧
    (spinorResize witnessSpinor witnessSigmaPot.sz).size = witnessSigmaPot.sz ∧
    (bAlertPot witnessSpinor 0).size ≤ witnessSpinor.size :=
  ⟨brueckner_frame_effect.1 (fun lp _ => ((lp : ℚ), 0)) 1 true witnessSpinor 2
      (zeroSpinor (-1)) (by decide),
    brueckner_frame_effect.2.2.2.1 1 id [] witnessSpinor false rfl,
    brueckner_frame_effect.2.2.2.2.1 id 1 id [] witnessSpinor rfl,
    (brueckner_frame_effect.2.2.2.2.2.1 1 id [((-1 : Int), witnessSigmaPot)] witnessSpinor
      false witnessSigmaPot (by simp [witnessSpinor, sigmaFind]) (by decide)).1,
    (brueckner_frame_effect.2.2.2.2.2.1 1 id [((-1 : Int), witnessSigmaPot)] witnessSpinor
      false witnessSigmaPot (by simp [witnessSpinor, sigmaFind]) (by decide)).2.1,
    brueckner_frame_effect.2.2.2.2.2.2 witnessSpinor 0⟩

/-- C8 witness: the idempotence theorem applied at a concrete stored
channel and at a concrete empty map. -/
theorem calculateSigma_idempotent_witness :
    calculateSigma (fun _ => witnessSigmaPot) (-1) [((-1 : Int), witnessSigmaPot)]
      = ([((-1 : Int), witnessSigmaPot)], 0) ∧
    (calculateSigma (fun _ => witnessSigmaPot) (-1) ([] : SigmaMap)).2 = 1 ∧
    calculateSigma (fun _ => witnessSigmaPot) (-1)
        (calculateSigma (fun _ => witnessSigmaPot) (-1) ([] : SigmaMap)).1
      = ((calculateSigma (fun _ => witnessSigmaPot) (-1) ([] : SigmaMap)).1, 0) :=
  ⟨calculateSigma_idempotent.1 (fun _ => witnessSigmaPot) (-1)
      [((-1 : Int), witnessSigmaPot)] witnessSigmaPot rfl,
    (calculateSigma_idempotent.2.1 (fun _ => witnessSigmaPot) (-1) [] rfl).1,
    calculateSigma_idempotent.2.2 (fun _ => witnessSigmaPot) (-1) []⟩

/-- C9 witness: the read/write theorem applied at a failing and a
succeeding concrete filesystem and at a concrete one-channel map. -/
theorem brueckner_read_write_witness :
    bruecknerRead (fun _ => none) "mysigma" (-1) [((-1 : Int), witnessSigmaPot)]
      = [((-1 : Int), witnessSigmaPot)] ∧
    sigmaFind (-1) (bruecknerRead (fun _ => some witnessSigmaPot) "mysigma" (-1) ([] : SigmaMap))
      = some witnessSigmaPot ∧
    (bruecknerWriteAll "mysigma" [((-1 : Int), witnessSigmaPot)]).1
      = [((-1 : Int), witnessSigmaPot)] :=
  ⟨brueckner_read_write.1 (fun _ => none) "mysigma" (-1) [((-1 : Int), witnessSigmaPot)] rfl,
    (brueckner_read_write.2.1 (fun _ => some witnessSigmaPot) "mysigma" (-1) []
      witnessSigmaPot rfl).1,
    (brueckner_read_write.2.2 "mysigma" [((-1 : Int), witnessSigmaPot)]).1⟩
